import Mathlib

/-!
Verification of the NSE announcements scraper (src/app.py) against its
specification. The Python program is shallowly embedded: the in-page
extraction script, the row-count stability polling loop, the driver
creation fallback chain, the scrape routine's exception handling and
resource release, and the HTTP handler are translated into executable
Lean definitions, and the specification's claims are proved or refuted
about those definitions.
-/

namespace NSE

/-- A hyperlink element (`<a>`) inside a table cell, as observed by the
in-page script: its `href` attribute and its raw `textContent`. -/
structure Link where
  href : String
  text : String
deriving DecidableEq

/-- One table cell (`<td>`) as the in-page script sees it: its raw
`textContent`, the first nested `<a>` element if any (`querySelector`),
the first nested `<p>` element's raw text if any, and the first nested
`span.content.eclipse` element's raw text if any. -/
structure Cell where
  textContent : String
  link : Option Link
  para : Option String
  expandSpan : Option String
deriving DecidableEq

/-- A table row (`<tr>`) is its list of cells, in document order. -/
abbrev Row := List Cell

/-- The flat record built by the in-page script of `scrape_announcements`
(src/app.py lines 114-162), one per table row with at least 7 cells. -/
structure Announcement where
  symbol : String
  symbol_link : String
  company_name : String
  subject : String
  details : String
  attachment_url : String
  attachment_size : String
  xbrl_url : String
  broadcast_date : String
deriving DecidableEq

/-- Per-row body of the in-page extraction script (src/app.py lines
118-159): a row with fewer than 7 cells yields nothing (`continue`);
otherwise cells 0-6 are read at fixed indices, with each ternary
`x ? ... : ...` on a nested element translated to a `match` on the
corresponding `Option`. -/
def extractRow : List Cell → Option Announcement
  | c0 :: c1 :: c2 :: c3 :: c4 :: c5 :: c6 :: _ =>
    some
      { symbol := c0.textContent.trim
        symbol_link := match c0.link with | some l => l.href | none => ""
        company_name := c1.textContent.trim
        subject := c2.textContent.trim
        details := match c3.expandSpan with | some s => s.trim | none => c3.textContent.trim
        attachment_url := match c4.link with | some l => l.href | none => ""
        attachment_size := match c4.para with | some p => p.trim | none => ""
        xbrl_url := match c5.link with | some l => l.href | none => ""
        broadcast_date := match c6.link with | some l => l.text.trim | none => c6.textContent.trim }
  | _ => none

/-- The whole in-page extraction script (src/app.py lines 114-162): walk
the rendered rows in order, skip rows with fewer than 7 cells, and push
one record per remaining row. -/
def extractScript (rows : List Row) : List Announcement :=
  rows.filterMap extractRow

/-- The cell used when a row is missing an index (only relevant to state
properties about rows; the script itself never reads past index 6 of a
row it accepts). -/
def defaultCell : Cell := ⟨"", none, none, none⟩

/-- Cell of `r` at index `i`, with `defaultCell` out of range. -/
def cellAt (r : List Cell) (i : Nat) : Cell := r.getD i defaultCell

/-- Total per-row record builder, used to state what the script produces
on a row with at least 7 cells; it agrees with `extractRow` there
(`extractRow_of_seven_le`). -/
def annOfRow (r : List Cell) : Announcement :=
  { symbol := (cellAt r 0).textContent.trim
    symbol_link := match (cellAt r 0).link with | some l => l.href | none => ""
    company_name := (cellAt r 1).textContent.trim
    subject := (cellAt r 2).textContent.trim
    details := match (cellAt r 3).expandSpan with
      | some s => s.trim
      | none => (cellAt r 3).textContent.trim
    attachment_url := match (cellAt r 4).link with | some l => l.href | none => ""
    attachment_size := match (cellAt r 4).para with | some p => p.trim | none => ""
    xbrl_url := match (cellAt r 5).link with | some l => l.href | none => ""
    broadcast_date := match (cellAt r 6).link with
      | some l => l.text.trim
      | none => (cellAt r 6).textContent.trim }

theorem extractRow_of_seven_le (r : List Cell) (h : 7 ≤ r.length) :
    extractRow r = some (annOfRow r) := by
  match r, h with
  | c0 :: c1 :: c2 :: c3 :: c4 :: c5 :: c6 :: t, _ => rfl

theorem extractRow_of_lt_seven (r : List Cell) (h : r.length < 7) :
    extractRow r = none := by
  match r, h with
  | [], _ => rfl
  | [c0], _ => rfl
  | [c0, c1], _ => rfl
  | [c0, c1, c2], _ => rfl
  | [c0, c1, c2, c3], _ => rfl
  | [c0, c1, c2, c3, c4], _ => rfl
  | [c0, c1, c2, c3, c4, c5], _ => rfl
  | c0 :: c1 :: c2 :: c3 :: c4 :: c5 :: c6 :: t, h =>
    simp only [List.length_cons] at h; omega

/-- Outcome of one run of the row-count stability polling loop of
`scrape_announcements` (src/app.py lines 96-108): how many loop-body
iterations executed, how many `time.sleep(0.1)` calls executed, and
whether the loop exited through the early `break`. -/
structure StabResult where
  iterations : Nat
  sleeps : Nat
  earlyBreak : Bool
deriving DecidableEq

/-- The stability polling loop body (src/app.py lines 96-108), recursing
over the list of remaining row-count samples. The two state variables
`previous_count` and `stable_count` are threaded exactly as in the
source: a sample equal to the previous one and positive increments
`stable_count`, which triggers `break` on reaching 2; any other sample
resets `stable_count` to 0; every non-breaking iteration updates
`previous_count` to the current sample and sleeps 0.1s. -/
def stabilityAux : List Nat → Nat → Nat → StabResult
  | [], _, _ => ⟨0, 0, false⟩
  | currentCount :: rest, previousCount, stableCount =>
    if currentCount = previousCount ∧ 0 < currentCount then
      if 2 ≤ stableCount + 1 then
        ⟨1, 0, true⟩
      else
        ⟨(stabilityAux rest currentCount (stableCount + 1)).iterations + 1,
         (stabilityAux rest currentCount (stableCount + 1)).sleeps + 1,
         (stabilityAux rest currentCount (stableCount + 1)).earlyBreak⟩
    else
      ⟨(stabilityAux rest currentCount 0).iterations + 1,
       (stabilityAux rest currentCount 0).sleeps + 1,
       (stabilityAux rest currentCount 0).earlyBreak⟩

/-- The full stability phase: `for _ in range(10)` over the row-count
samples `counts 0, counts 1, ...` observed by successive
`find_elements` calls, starting from `previous_count = 0` and
`stable_count = 0` (src/app.py lines 96-98). -/
def stabilityLoop (counts : Nat → Nat) : StabResult :=
  stabilityAux ((List.range 10).map counts) 0 0

theorem stabilityAux_iterations_le (cs : List Nat) :
    ∀ p s, (stabilityAux cs p s).iterations ≤ cs.length ∧
      (stabilityAux cs p s).sleeps ≤ cs.length := by
  induction cs with
  | nil => intro p s; simp [stabilityAux]
  | cons c rest ih =>
    intro p s
    simp only [stabilityAux, List.length_cons]
    split
    · split
      · exact ⟨by show (1 : Nat) ≤ rest.length + 1; omega,
               by show (0 : Nat) ≤ rest.length + 1; omega⟩
      · obtain ⟨h1, h2⟩ := ih c (s + 1)
        exact ⟨by show (stabilityAux rest c (s + 1)).iterations + 1 ≤ rest.length + 1; omega,
               by show (stabilityAux rest c (s + 1)).sleeps + 1 ≤ rest.length + 1; omega⟩
    · obtain ⟨h1, h2⟩ := ih c 0
      exact ⟨by show (stabilityAux rest c 0).iterations + 1 ≤ rest.length + 1; omega,
             by show (stabilityAux rest c 0).sleeps + 1 ≤ rest.length + 1; omega⟩

theorem stabilityAux_early (j : Nat) :
    ∀ (cs : List Nat) (p s a : Nat),
      cs.get? j = some a → cs.get? (j + 1) = some a → cs.get? (j + 2) = some a → 0 < a →
      (stabilityAux cs p s).earlyBreak = true ∧ (stabilityAux cs p s).iterations ≤ j + 3 := by
  induction j with
  | zero =>
    intro cs p s a h0 h1 h2 ha
    match cs, h0, h1, h2 with
    | c0 :: c1 :: c2 :: t, h0, h1, h2 =>
      simp only [List.get?_cons_zero, List.get?_cons_succ, Option.some.injEq] at h0 h1 h2
      rw [h0, h1, h2]
      rcases eq_or_ne a p with hap | hap
      · subst hap
        by_cases hs : 2 ≤ s + 1
        · simp [stabilityAux, ha, hs]
        · have hs0 : s = 0 := by omega
          subst hs0
          simp [stabilityAux, ha]
      · simp [stabilityAux, hap, ha]
  | succ j ih =>
    intro cs p s a h0 h1 h2 ha
    match cs, h0 with
    | c :: rest, h0 =>
      simp only [List.get?_cons_succ] at h0 h1 h2
      simp only [stabilityAux]
      split
      · split
        · exact ⟨rfl, by show (1 : Nat) ≤ j + 1 + 3; omega⟩
        · obtain ⟨hb, hi⟩ := ih rest c (s + 1) a h0 h1 h2 ha
          refine ⟨hb, ?_⟩
          show (stabilityAux rest c (s + 1)).iterations + 1 ≤ j + 1 + 3
          omega
      · obtain ⟨hb, hi⟩ := ih rest c 0 a h0 h1 h2 ha
        refine ⟨hb, ?_⟩
        show (stabilityAux rest c 0).iterations + 1 ≤ j + 1 + 3
        omega

theorem sampleList_get (counts : Nat → Nat) (j : Nat) (hj : j < 10) :
    ((List.range 10).map counts).get? j = some (counts j) := by
  interval_cases j <;> rfl

/-- Exceptions raised by the selenium layer, as dispatched by the
`except` clauses of `scrape_announcements` (src/app.py lines 167-175):
`TimeoutException` is checked first, then `WebDriverException`, then any
other `Exception` (each carrying its message). -/
inductive PyError where
  | timeoutException : PyError
  | webDriverException : String → PyError
  | otherException : String → PyError
deriving DecidableEq

/-- An open browser session handle (abstract). -/
structure Driver where
  id : Nat
deriving DecidableEq

/-- The driver-binary resolution steps named by the spec for
`create_driver`: the fixed filesystem path
`/usr/local/bin/chromedriver`, the `ChromeDriverManager().install()`
download service, and `webdriver.Chrome` with no explicit service. -/
inductive DriverStep where
  | fixedPath
  | manager
  | defaultDiscovery
deriving DecidableEq

/-- Environment for `create_driver`: whether
`os.path.exists('/usr/local/bin/chromedriver')` holds, and the outcome
each of the three construction attempts would have if executed. -/
structure DriverEnv where
  chromedriverPathExists : Bool
  fixedPathResult : Except PyError Driver
  managerResult : Except PyError Driver
  defaultResult : Except PyError Driver

/-- Embedding of `create_driver` (src/app.py lines 46-64). The `try`
block runs the fixed-path construction when the path exists, and
otherwise the webdriver-manager construction; on any exception from
that block the `except` handler tries `webdriver.Chrome(options=...)`
with no explicit service, and if that also fails, the bare `raise`
re-raises the second (last) error. The returned list records which
resolution steps were actually attempted, in order. -/
def create_driver (env : DriverEnv) : Except PyError Driver × List DriverStep :=
  if env.chromedriverPathExists then
    match env.fixedPathResult with
    | .ok d => (.ok d, [.fixedPath])
    | .error _ =>
      match env.defaultResult with
      | .ok d => (.ok d, [.fixedPath, .defaultDiscovery])
      | .error e2 => (.error e2, [.fixedPath, .defaultDiscovery])
  else
    match env.managerResult with
    | .ok d => (.ok d, [.manager])
    | .error _ =>
      match env.defaultResult with
      | .ok d => (.ok d, [.manager, .defaultDiscovery])
      | .error e2 => (.error e2, [.manager, .defaultDiscovery])

/-- The message of the `Exception` re-raised by each `except` clause of
`scrape_announcements` (src/app.py lines 167-175). -/
def classifyError : PyError → String
  | .timeoutException => "Timeout: Table did not load within the expected time"
  | .webDriverException m => "WebDriver error: " ++ m
  | .otherException m => "Error scraping announcements: " ++ m

/-- The URL built by `scrape_announcements` (src/app.py line 80): the
symbol is upper-cased and interpolated into the filings-page address. -/
def announcementsUrl (symbol : String) : String :=
  "https://www.nseindia.com/companies-listing/corporate-filings-announcements?symbol="
    ++ symbol.toUpper

/-- One request's external world: the driver environment, the outcome of
`driver.get` (`none` = success), whether the 30-second presence wait
(`WebDriverWait(driver, 30).until(...)`) raised `TimeoutException`, the
row-count samples seen by the stability polling loop, and the table rows
rendered at `execute_script` time. -/
structure World where
  driverEnv : DriverEnv
  navResult : Option PyError
  presenceTimeout : Bool
  rowCounts : Nat → Nat
  domFinal : List Row

/-- Observable side effects of one `scrape_announcements` call: whether
`create_driver` returned a session, the URL passed to `driver.get`, and
how many times `driver.quit()` ran. -/
structure ScrapeTrace where
  driverCreated : Bool
  urlVisited : Option String
  quits : Nat
deriving DecidableEq

/-- Body of the `try` block of `scrape_announcements` after the driver
exists (src/app.py lines 80-165): navigate, presence wait (30s, may
raise `TimeoutException`), stability polling (its result is used only
for logging), then the in-page extraction script. -/
def scrapeBody (w : World) : Except PyError (List Announcement) :=
  match w.navResult with
  | some e => .error e
  | none =>
    if w.presenceTimeout then .error .timeoutException
    else
      let _stability := stabilityLoop w.rowCounts
      .ok (extractScript w.domFinal)

/-- Embedding of `scrape_announcements` (src/app.py lines 67-179):
`driver = None`; `create_driver` may raise (caught below, `finally`
sees `driver = None` so no `quit`); otherwise the try body runs and the
`except` clauses convert any `PyError` to an `Exception` message via
`classifyError`; the `finally` block calls `driver.quit()` exactly once
whenever the driver was assigned. -/
def scrape_announcements (symbol : String) (w : World) :
    Except String (List Announcement) × ScrapeTrace :=
  match (create_driver w.driverEnv).1 with
  | .error e => (.error (classifyError e), ⟨false, none, 0⟩)
  | .ok _d =>
    match scrapeBody w with
    | .ok anns => (.ok anns, ⟨true, some (announcementsUrl symbol), 1⟩)
    | .error e => (.error (classifyError e), ⟨true, some (announcementsUrl symbol), 1⟩)

/-- JSON body of a response of the `/announcements` handler
(src/app.py lines 193-213). -/
inductive ApiBody where
  | missingParam (error examplePath : String)
  | success (symbol : String) (count : Nat) (announcements : List Announcement)
  | failure (error symbol : String)
deriving DecidableEq

/-- Result of one `/announcements` request: HTTP status, JSON body, how
many times `scrape_announcements` was invoked, and the scrape's side
effects (zeroed when no scrape ran). -/
structure HttpResult where
  status : Nat
  body : ApiBody
  scrapeCalls : Nat
  trace : ScrapeTrace
deriving DecidableEq

/-- Embedding of the `get_announcements` handler (src/app.py lines
182-213): a missing or empty `symbol` query parameter (`if not symbol`)
yields 400 without scraping; otherwise the scrape runs once and its
result maps to a 200 body or to a 500 body carrying the error message
and the upper-cased symbol. -/
def get_announcements (symbolParam : Option String) (w : World) : HttpResult :=
  match symbolParam with
  | none =>
    ⟨400, .missingParam "Symbol parameter is required" "/announcements?symbol=RELIANCE",
      0, ⟨false, none, 0⟩⟩
  | some symbol =>
    if symbol = "" then
      ⟨400, .missingParam "Symbol parameter is required" "/announcements?symbol=RELIANCE",
        0, ⟨false, none, 0⟩⟩
    else
      match (scrape_announcements symbol w).1, (scrape_announcements symbol w).2 with
      | .ok anns, tr => ⟨200, .success symbol.toUpper anns.length anns, 1, tr⟩
      | .error e, tr => ⟨500, .failure e symbol.toUpper, 1, tr⟩

theorem scrape_trace_of_driver (symbol : String) (w : World) (d : Driver)
    (hd : (create_driver w.driverEnv).1 = .ok d) :
    (scrape_announcements symbol w).2 = ⟨true, some (announcementsUrl symbol), 1⟩ := by
  unfold scrape_announcements
  rw [hd]
  cases hsb : scrapeBody w <;> rfl

theorem scrape_ok_driver (symbol : String) (w : World) (anns : List Announcement)
    (hok : (scrape_announcements symbol w).1 = .ok anns) :
    ∃ d, (create_driver w.driverEnv).1 = .ok d := by
  cases hcd : (create_driver w.driverEnv).1 with
  | error e =>
    unfold scrape_announcements at hok
    rw [hcd] at hok
    simp at hok
  | ok d => exact ⟨d, rfl⟩

theorem scrape_ok_of_no_fault (symbol : String) (w : World) (d : Driver)
    (hd : (create_driver w.driverEnv).1 = .ok d) (hnav : w.navResult = none)
    (hto : w.presenceTimeout = false) :
    (scrape_announcements symbol w).1 = .ok (extractScript w.domFinal) := by
  simp [scrape_announcements, scrapeBody, hd, hnav, hto]

theorem scrape_timeout_result (symbol : String) (w : World) (d : Driver)
    (hd : (create_driver w.driverEnv).1 = .ok d) (hnav : w.navResult = none)
    (hto : w.presenceTimeout = true) :
    (scrape_announcements symbol w).1 =
      .error "Timeout: Table did not load within the expected time" := by
  simp [scrape_announcements, scrapeBody, hd, hnav, hto, classifyError]

theorem handler_ok (symbol : String) (w : World) (anns : List Announcement)
    (hne : symbol ≠ "") (hok : (scrape_announcements symbol w).1 = .ok anns) :
    get_announcements (some symbol) w =
      ⟨200, .success symbol.toUpper anns.length anns, 1, (scrape_announcements symbol w).2⟩ := by
  simp [get_announcements, hne, hok]

theorem handler_error (symbol : String) (w : World) (msg : String)
    (hne : symbol ≠ "") (herr : (scrape_announcements symbol w).1 = .error msg) :
    get_announcements (some symbol) w =
      ⟨500, .failure msg symbol.toUpper, 1, (scrape_announcements symbol w).2⟩ := by
  simp [get_announcements, hne, herr]

/-- C1: for every rendered table state, the extraction pass produces
exactly one Announcement per row with at least 7 cells (the record read
off cells 0-6 by `annOfRow`), silently skips every row with fewer than
7 cells, and returns the records in the same order as the rows: the
result is exactly the per-row builder mapped over the rows that survive
the length-7 filter. -/
theorem extraction_one_record_per_row (rows : List Row) :
    extractScript rows = (rows.filter (fun r => decide (7 ≤ r.length))).map annOfRow := by
  induction rows with
  | nil => rfl
  | cons r rest ih =>
    simp only [extractScript] at ih ⊢
    rcases Nat.lt_or_ge r.length 7 with h | h
    · simp [List.filterMap_cons, extractRow_of_lt_seven r h, List.filter_cons,
        Nat.not_le.mpr h, ih]
    · simp [List.filterMap_cons, extractRow_of_seven_le r h, List.filter_cons, h, ih]

/-- C2: the stability polling loop of `scrape_announcements` executes at
most 10 iterations and at most 10 `time.sleep(0.1)` calls (≈1 second of
polling delay); as soon as two consecutive iterations each observe a
positive row count unchanged from the previous sample (i.e. three
consecutive equal positive samples `counts j = counts (j+1) =
counts (j+2) > 0`), it stops through the early `break`, by iteration
`j + 3` at the latest; and when the loop finishes without observing
stability (`earlyBreak = false`), the routine still proceeds to the
extraction script and returns its result rather than failing. -/
theorem stability_loop_bounded_early_nonfatal (counts : Nat → Nat) (symbol : String)
    (w : World) :
    (stabilityLoop counts).iterations ≤ 10 ∧
    (stabilityLoop counts).sleeps ≤ 10 ∧
    (∀ j a, j + 2 < 10 → counts j = a → counts (j + 1) = a → counts (j + 2) = a → 0 < a →
      (stabilityLoop counts).earlyBreak = true ∧
      (stabilityLoop counts).iterations ≤ j + 3) ∧
    (∀ d, (stabilityLoop w.rowCounts).earlyBreak = false →
      (create_driver w.driverEnv).1 = .ok d → w.navResult = none →
      w.presenceTimeout = false →
      (scrape_announcements symbol w).1 = .ok (extractScript w.domFinal)) := by
  have hlen : ((List.range 10).map counts).length = 10 := by simp
  obtain ⟨hi, hs⟩ := stabilityAux_iterations_le ((List.range 10).map counts) 0 0
  refine ⟨?_, ?_, ?_, ?_⟩
  · show (stabilityAux ((List.range 10).map counts) 0 0).iterations ≤ 10
    omega
  · show (stabilityAux ((List.range 10).map counts) 0 0).sleeps ≤ 10
    omega
  · intro j a hj h0 h1 h2 ha
    have g0 := sampleList_get counts j (by omega)
    have g1 := sampleList_get counts (j + 1) (by omega)
    have g2 := sampleList_get counts (j + 2) (by omega)
    rw [h0] at g0
    rw [h1] at g1
    rw [h2] at g2
    exact stabilityAux_early j ((List.range 10).map counts) 0 0 a g0 g1 g2 ha
  · intro d _hb hd hnav hto
    exact scrape_ok_of_no_fault symbol w d hd hnav hto

/-- Browser environment in which every driver construction succeeds, the
navigation succeeds, presence is immediate, the sampled row counts keep
changing (0,1,2,...) so the stability loop never breaks early, and the
final table is empty. -/
def stabWorld : World :=
  ⟨⟨true, .ok ⟨0⟩, .ok ⟨0⟩, .ok ⟨0⟩⟩, none, false, fun i => i, []⟩

/-- Witness for C2: constant positive samples trigger the early break by
iteration 3, and in `stabWorld` (where the loop never stabilizes) the
scrape still returns the extraction result. -/
theorem stability_loop_bounded_early_nonfatal_witness :
    (stabilityLoop (fun _ => 5)).earlyBreak = true ∧
    (stabilityLoop (fun _ => 5)).iterations ≤ 3 ∧
    (scrape_announcements "INFY" stabWorld).1 = .ok (extractScript stabWorld.domFinal) := by
  have h := stability_loop_bounded_early_nonfatal (fun _ => 5) "INFY" stabWorld
  have he := h.2.2.1 0 5 (by omega) rfl rfl rfl (by omega)
  exact ⟨he.1, by have := he.2; omega, h.2.2.2 ⟨0⟩ rfl rfl rfl rfl⟩

/-- Driver environment refuting C3's claimed three-step fallthrough: the
fixed chromedriver path exists but its session construction fails, the
download service would succeed, and default discovery fails. -/
def cexDriverEnv : DriverEnv :=
  ⟨true, .error (.webDriverException "fixed-path chromedriver failed to start"),
    .ok ⟨1⟩, .error (.webDriverException "chrome binary not found")⟩

/-- C3 counterexample: in `cexDriverEnv` the claimed order (a)→(b)→(c)
would succeed at step (b), yet `create_driver` fails with the
default-discovery error and the download-service step is never
attempted: a step's failure does not fall through to the next step in
the claimed order, because step (b) is reachable only when the fixed
path is absent. -/
theorem create_driver_order_counterexample :
    (create_driver cexDriverEnv).1 =
      .error (.webDriverException "chrome binary not found") ∧
    cexDriverEnv.managerResult = .ok ⟨1⟩ ∧
    DriverStep.manager ∉ (create_driver cexDriverEnv).2 ∧
    (create_driver cexDriverEnv).2 = [.fixedPath, .defaultDiscovery] :=
  ⟨rfl, rfl, by decide, rfl⟩

/-- C3 (amended): driver creation attempts at most two resolution steps —
the fixed filesystem path when it exists, otherwise the automatic
driver-download service; whichever of the two was chosen, its failure
falls through to default discovery with no explicit binary path, and if
that also fails the routine fails, raising the last underlying error
(the default-discovery error). The download service is attempted only
when the fixed path is absent: it is never reached after a fixed-path
failure. -/
theorem create_driver_resolution (env : DriverEnv) :
    (∀ d, env.chromedriverPathExists = true → env.fixedPathResult = .ok d →
      create_driver env = (.ok d, [.fixedPath])) ∧
    (∀ d, env.chromedriverPathExists = false → env.managerResult = .ok d →
      create_driver env = (.ok d, [.manager])) ∧
    (∀ e, env.chromedriverPathExists = true → env.fixedPathResult = .error e →
      create_driver env = (env.defaultResult, [.fixedPath, .defaultDiscovery])) ∧
    (∀ e, env.chromedriverPathExists = false → env.managerResult = .error e →
      create_driver env = (env.defaultResult, [.manager, .defaultDiscovery])) ∧
    (env.chromedriverPathExists = true → DriverStep.manager ∉ (create_driver env).2) := by
  refine ⟨?_, ?_, ?_, ?_, ?_⟩
  · intro d hpe hr
    simp [create_driver, hpe, hr]
  · intro d hpe hr
    simp [create_driver, hpe, hr]
  · intro e hpe hr
    cases hdr : env.defaultResult <;> simp [create_driver, hpe, hr, hdr]
  · intro e hpe hr
    cases hdr : env.defaultResult <;> simp [create_driver, hpe, hr, hdr]
  · intro hpe
    simp only [create_driver, hpe, if_true]
    cases env.fixedPathResult with
    | ok d => simp
    | error e =>
      cases env.defaultResult with
      | ok d => simp
      | error e2 => simp

/-- Driver environment exercising the amended C3 statement: no fixed
path, download service fails, default discovery succeeds. -/
def witDriverEnv : DriverEnv :=
  ⟨false, .error .timeoutException, .error (.otherException "download failed"), .ok ⟨2⟩⟩

/-- Witness for the amended C3: the manager failure falls through to the
successful default discovery. -/
theorem create_driver_resolution_witness :
    create_driver witDriverEnv = (.ok ⟨2⟩, [.manager, .defaultDiscovery]) :=
  (create_driver_resolution witDriverEnv).2.2.2.1 (.otherException "download failed") rfl rfl

/-- C4: on every row with at least 7 cells the extraction yields a record
(never a thrown fault; every field is a total string, so never
null/undefined), and each absent nested element falls back as
specified: the empty string for `symbol_link`, `attachment_url`,
`attachment_size` and `xbrl_url`, and the cell's full trimmed text for
`details` and `broadcast_date`. -/
theorem missing_nested_element_defaults (r : List Cell) (h : 7 ≤ r.length) :
    ∃ a, extractRow r = some a ∧
      ((cellAt r 0).link = none → a.symbol_link = "") ∧
      ((cellAt r 3).expandSpan = none → a.details = (cellAt r 3).textContent.trim) ∧
      ((cellAt r 4).link = none → a.attachment_url = "") ∧
      ((cellAt r 4).para = none → a.attachment_size = "") ∧
      ((cellAt r 5).link = none → a.xbrl_url = "") ∧
      ((cellAt r 6).link = none → a.broadcast_date = (cellAt r 6).textContent.trim) := by
  refine ⟨annOfRow r, extractRow_of_seven_le r h, ?_, ?_, ?_, ?_, ?_, ?_⟩ <;>
    · intro hn
      simp [annOfRow, hn]

/-- A cell with text content but none of the nested elements. -/
def bareCell : Cell := ⟨" RELIANCE ", none, none, none⟩

/-- A 7-cell row with no nested elements anywhere. -/
def bareRow : List Cell := [bareCell, bareCell, bareCell, bareCell, bareCell, bareCell, bareCell]

/-- Witness for C4 on a concrete 7-cell row with every nested element
absent. -/
theorem missing_nested_element_defaults_witness :
    ∃ a, extractRow bareRow = some a ∧
      ((cellAt bareRow 0).link = none → a.symbol_link = "") ∧
      ((cellAt bareRow 3).expandSpan = none →
        a.details = (cellAt bareRow 3).textContent.trim) ∧
      ((cellAt bareRow 4).link = none → a.attachment_url = "") ∧
      ((cellAt bareRow 4).para = none → a.attachment_size = "") ∧
      ((cellAt bareRow 5).link = none → a.xbrl_url = "") ∧
      ((cellAt bareRow 6).link = none →
        a.broadcast_date = (cellAt bareRow 6).textContent.trim) :=
  missing_nested_element_defaults bareRow (by decide)

/-- C5: for every non-empty symbol, regardless of letter case, the symbol
is upper-cased before being interpolated into the target URL passed to
`driver.get`, and the `symbol` field of the 200 response equals the
upper-cased input. -/
theorem symbol_uppercased_in_url_and_response (symbol : String) (w : World)
    (anns : List Announcement) (hne : symbol ≠ "")
    (hok : (scrape_announcements symbol w).1 = .ok anns) :
    (get_announcements (some symbol) w).status = 200 ∧
    (get_announcements (some symbol) w).body = .success symbol.toUpper anns.length anns ∧
    (get_announcements (some symbol) w).trace.urlVisited =
      some ("https://www.nseindia.com/companies-listing/corporate-filings-announcements?symbol="
        ++ symbol.toUpper) := by
  obtain ⟨d, hd⟩ := scrape_ok_driver symbol w anns hok
  have ht := scrape_trace_of_driver symbol w d hd
  rw [handler_ok symbol w anns hne hok]
  refine ⟨rfl, rfl, ?_⟩
  rw [ht]
  rfl

/-- Witness for C5: a lower-case symbol in a successful world. -/
theorem symbol_uppercased_in_url_and_response_witness :
    (get_announcements (some "reliance") stabWorld).status = 200 ∧
    (get_announcements (some "reliance") stabWorld).body =
      .success "reliance".toUpper 0 [] ∧
    (get_announcements (some "reliance") stabWorld).trace.urlVisited =
      some ("https://www.nseindia.com/companies-listing/corporate-filings-announcements?symbol="
        ++ "reliance".toUpper) :=
  symbol_uppercased_in_url_and_response "reliance" stabWorld [] (by decide) rfl

/-- C6: when the presence phase times out (no row within the 30-second
budget), the request yields a 500 response whose error message is the
timeout message and whose symbol field echoes the upper-cased input;
the failure is terminal — the scrape ran exactly once (no retry), the
body carries no announcement list (no partial result), and the session
was terminated exactly once. -/
theorem presence_timeout_yields_500 (symbol : String) (w : World) (d : Driver)
    (hne : symbol ≠ "") (hd : (create_driver w.driverEnv).1 = .ok d)
    (hnav : w.navResult = none) (hto : w.presenceTimeout = true) :
    (get_announcements (some symbol) w).status = 500 ∧
    (get_announcements (some symbol) w).body =
      .failure "Timeout: Table did not load within the expected time" symbol.toUpper ∧
    (get_announcements (some symbol) w).scrapeCalls = 1 ∧
    (get_announcements (some symbol) w).trace.quits = 1 := by
  have hs := scrape_timeout_result symbol w d hd hnav hto
  have ht := scrape_trace_of_driver symbol w d hd
  rw [handler_error symbol w _ hne hs]
  exact ⟨rfl, rfl, rfl, by rw [ht]⟩

/-- World in which the driver starts and navigation succeeds but no table
row ever appears within the presence budget. -/
def timeoutWorld : World :=
  ⟨⟨true, .ok ⟨0⟩, .ok ⟨0⟩, .ok ⟨0⟩⟩, none, true, fun _ => 0, []⟩

/-- Witness for C6 at a concrete symbol and timed-out world. -/
theorem presence_timeout_yields_500_witness :
    (get_announcements (some "tcs") timeoutWorld).status = 500 ∧
    (get_announcements (some "tcs") timeoutWorld).body =
      .failure "Timeout: Table did not load within the expected time" "tcs".toUpper ∧
    (get_announcements (some "tcs") timeoutWorld).scrapeCalls = 1 ∧
    (get_announcements (some "tcs") timeoutWorld).trace.quits = 1 :=
  presence_timeout_yields_500 "tcs" timeoutWorld ⟨0⟩ (by decide) rfl rfl rfl

/-- C7: a request with no `symbol` query parameter yields a 400 response
carrying the error and example fields, with no scrape invocation and no
browser session created. -/
theorem missing_symbol_yields_400 (w : World) :
    (get_announcements none w).status = 400 ∧
    (get_announcements none w).body =
      .missingParam "Symbol parameter is required" "/announcements?symbol=RELIANCE" ∧
    (get_announcements none w).scrapeCalls = 0 ∧
    (get_announcements none w).trace.driverCreated = false :=
  ⟨rfl, rfl, rfl, rfl⟩

/-- C8: whenever the browser session is successfully created inside the
scrape routine, `driver.quit()` runs exactly once before the routine
returns, on every exit path (the world `w` ranges over normal returns,
navigation faults, and presence timeouts alike). -/
theorem driver_quit_exactly_once (symbol : String) (w : World) (d : Driver)
    (hd : (create_driver w.driverEnv).1 = .ok d) :
    (scrape_announcements symbol w).2.quits = 1 := by
  rw [scrape_trace_of_driver symbol w d hd]

/-- Witness for C8 on a world whose scrape fails with a timeout after the
session was created. -/
theorem driver_quit_exactly_once_witness :
    (scrape_announcements "WIPRO" timeoutWorld).2.quits = 1 :=
  driver_quit_exactly_once "WIPRO" timeoutWorld ⟨0⟩ rfl

/-- C9: on every successful scrape, the handler returns 200 with a body
whose `count` field equals the length of its `announcements` list and
whose `announcements` list is exactly the sequence the scrape routine
returned, in row order. -/
theorem success_response_count_and_order (symbol : String) (w : World)
    (anns : List Announcement) (hne : symbol ≠ "")
    (hok : (scrape_announcements symbol w).1 = .ok anns) :
    (get_announcements (some symbol) w).status = 200 ∧
    (get_announcements (some symbol) w).body =
      .success symbol.toUpper anns.length anns := by
  rw [handler_ok symbol w anns hne hok]
  exact ⟨rfl, rfl⟩

/-- World rendering three 7-cell rows, as in the spec's scenario. -/
def threeRowWorld : World :=
  ⟨⟨true, .ok ⟨0⟩, .ok ⟨0⟩, .ok ⟨0⟩⟩, none, false, fun _ => 3,
    [bareRow, bareRow, bareRow]⟩

/-- Witness for C9: three rendered rows produce `count = 3` and three
records in row order. -/
theorem success_response_count_and_order_witness :
    (get_announcements (some "RELIANCE") threeRowWorld).status = 200 ∧
    (get_announcements (some "RELIANCE") threeRowWorld).body =
      .success "RELIANCE".toUpper (extractScript threeRowWorld.domFinal).length
        (extractScript threeRowWorld.domFinal) :=
  success_response_count_and_order "RELIANCE" threeRowWorld
    (extractScript threeRowWorld.domFinal) (by decide) rfl

/-- C10: an empty-string `symbol` query parameter is handled identically
to a missing one (`if not symbol` is true for the empty string): 400
response, no scrape invocation, no session. -/
theorem empty_symbol_like_missing (w : World) :
    get_announcements (some "") w = get_announcements none w ∧
    (get_announcements (some "") w).status = 400 ∧
    (get_announcements (some "") w).scrapeCalls = 0 :=
  ⟨rfl, rfl, rfl⟩

end NSE
